import Mathlib

/-!
Verification of the llvm-rust safety layer.

This file gives a shallow embedding of the parts of the library exercised by
the spec: the type facade (src/ty.rs), values and capability casts
(src/value.rs), the instruction builder (src/builder.rs), the attribute
bitset, the native-list iterator adapter, and module lookups
(src/module.rs).  Handles of the underlying engine are modelled as natural
numbers, the null handle being 0.  Native LLVM C API calls that are not part
of this repository are modelled from the spec's description of the boundary
and are marked as such in their doc comments.
-/

set_option maxRecDepth 4096

namespace LlvmRs

/-- The native type-kind discriminant, from the engine's `LLVMTypeKind`
enumeration as consumed by src/ty.rs. -/
inductive LLVMTypeKind where
| LLVMVoidTypeKind
| LLVMHalfTypeKind
| LLVMFloatTypeKind
| LLVMDoubleTypeKind
| LLVMX86FP80TypeKind
| LLVMFP128TypeKind
| LLVMPPCFP128TypeKind
| LLVMLabelTypeKind
| LLVMIntegerTypeKind
| LLVMFunctionTypeKind
| LLVMStructTypeKind
| LLVMArrayTypeKind
| LLVMPointerTypeKind
| LLVMVectorTypeKind
| LLVMMetadataTypeKind
deriving DecidableEq

mutual
/-- A structural model of the engine's uniqued type descriptors (`Type` in
src/ty.rs; named `Ty` because `Type` is taken in Lean).  Each constructor
corresponds to one native type kind; `TyList` models the `&[&Type]` field
lists of function and struct types. -/
inductive Ty where
| void
| half
| float
| double
| x86fp80
| fp128
| ppcfp128
| label
| integer (bits : Nat)
| function (ret : Ty) (params : TyList)
| struct (fields : TyList) (packed : Bool)
| array (elem : Ty) (len : Nat)
| pointer (elem : Ty)
| vector (elem : Ty) (len : Nat)
| metadata
deriving DecidableEq

inductive TyList where
| nil
| cons (head : Ty) (tail : TyList)
deriving DecidableEq
end

namespace Ty

/-- Modelled from the spec: `LLVMGetTypeKind` returns the discriminant tag of
a type descriptor (read directly each call, spec section 4.5). -/
def kind : Ty → LLVMTypeKind
| .void => .LLVMVoidTypeKind
| .half => .LLVMHalfTypeKind
| .float => .LLVMFloatTypeKind
| .double => .LLVMDoubleTypeKind
| .x86fp80 => .LLVMX86FP80TypeKind
| .fp128 => .LLVMFP128TypeKind
| .ppcfp128 => .LLVMPPCFP128TypeKind
| .label => .LLVMLabelTypeKind
| .integer _ => .LLVMIntegerTypeKind
| .function _ _ => .LLVMFunctionTypeKind
| .struct _ _ => .LLVMStructTypeKind
| .array _ _ => .LLVMArrayTypeKind
| .pointer _ => .LLVMPointerTypeKind
| .vector _ _ => .LLVMVectorTypeKind
| .metadata => .LLVMMetadataTypeKind

/-- `Type::is_function` (src/ty.rs, lines 138-143): the kind equals the
function kind. -/
def is_function (t : Ty) : Bool := t.kind = LLVMTypeKind.LLVMFunctionTypeKind

/-- `Type::is_struct` (src/ty.rs, lines 146-151). -/
def is_struct (t : Ty) : Bool := t.kind = LLVMTypeKind.LLVMStructTypeKind

/-- `Type::is_void` (src/ty.rs, lines 154-159). -/
def is_void (t : Ty) : Bool := t.kind = LLVMTypeKind.LLVMVoidTypeKind

/-- `Type::is_pointer` (src/ty.rs, lines 162-167). -/
def is_pointer (t : Ty) : Bool := t.kind = LLVMTypeKind.LLVMPointerTypeKind

/-- `Type::is_integer` (src/ty.rs, lines 170-175). -/
def is_integer (t : Ty) : Bool := t.kind = LLVMTypeKind.LLVMIntegerTypeKind

/-- `Type::is_float` (src/ty.rs, lines 178-185): true exactly for the half,
float and double kinds. -/
def is_float (t : Ty) : Bool :=
  t.kind = LLVMTypeKind.LLVMHalfTypeKind ∨
  t.kind = LLVMTypeKind.LLVMFloatTypeKind ∨
  t.kind = LLVMTypeKind.LLVMDoubleTypeKind

/-- `Type::get_element` (src/ty.rs, lines 195-199): transmutes the result of
the native `LLVMGetElementType`, which produces the element type of a
sequential (pointer, array or vector) type and the null handle otherwise;
the null handle becomes `none`. -/
def get_element : Ty → Option Ty
| .pointer e => some e
| .array e _ => some e
| .vector e _ => some e
| _ => none

end Ty

/-- The `while let Some(elem) = ty.get_element() { ty = elem }` loop of
`FunctionType::cast` (src/ty.rs, lines 305-307), written as structural
recursion over exactly the cases where `get_element` is `some`. -/
def strip_elements : Ty → Ty
| .pointer e => strip_elements e
| .array e _ => strip_elements e
| .vector e _ => strip_elements e
| t => t

/-- `CastFrom for FunctionType` (src/ty.rs, lines 300-317): strip element
indirection until `get_element` misses, then test the function kind tag. -/
def FunctionType.cast (ty : Ty) : Option Ty :=
  let t := strip_elements ty
  if t.is_function then some t else none

/-- A typed operand (`Value` in src/value.rs).  The only observation the
embedded operations make of a value handle is `LLVMTypeOf`, so a value is
modelled as its type together with a handle identity. -/
structure Value where
  handle : Nat
  ty : Ty
deriving DecidableEq

/-- `Value::get_type` (src/value.rs, lines 112-115), i.e. `LLVMTypeOf`. -/
def Value.get_type (v : Value) : Ty := v.ty

/-- `CastFrom for Function` (src/value.rs, lines 263-282): the value's type
must be a function signature, possibly behind one level of element
indirection. -/
def Function.cast (v : Value) : Option Value :=
  let ty := v.get_type
  let is_func := ty.is_function
  let is_func :=
    match ty.get_element with
    | some elem => is_func || elem.is_function
    | none => is_func
  if is_func then some v else none

/-- The six-way comparison predicate (`Predicate` in src/value.rs,
lines 155-164). -/
inductive Predicate where
| Equal
| NotEqual
| GreaterThan
| GreaterThanOrEqual
| LessThan
| LessThanOrEqual
deriving DecidableEq, Fintype

/-- The native signed/unsigned integer comparison codes (`LLVMIntPredicate`
of the engine, as consumed by src/builder.rs). -/
inductive LLVMIntPredicate where
| LLVMIntEQ
| LLVMIntNE
| LLVMIntUGT
| LLVMIntUGE
| LLVMIntULT
| LLVMIntULE
| LLVMIntSGT
| LLVMIntSGE
| LLVMIntSLT
| LLVMIntSLE
deriving DecidableEq

/-- The native floating-point comparison codes used by src/builder.rs
(the ordered members of the engine's `LLVMRealPredicate`). -/
inductive LLVMRealPredicate where
| LLVMRealOEQ
| LLVMRealOGT
| LLVMRealOGE
| LLVMRealOLT
| LLVMRealOLE
| LLVMRealONE
deriving DecidableEq

/-- A fatal contract violation: in the Rust source these are `panic!` or a
failed `assert_eq!`, which terminate the operation immediately instead of
returning a value.  Fallible embedded operations return
`Except Panic α`. -/
inductive Panic where
| assertEqFailed
| expectedNumbers (ty : Ty)
| noSuchIndex (index : Nat)
| operandKindMismatch
deriving DecidableEq

/-- Integer-only native binary opcodes emitted by the builder
(`LLVMBuildAdd`, ..., `LLVMBuildXor` in src/builder.rs, lines 259-268). -/
inductive IOp where
| add
| sub
| mul
| sdiv
| srem
| shl
| ashr
| iand
| ior
| ixor
deriving DecidableEq

/-- Floating-point native binary opcodes emitted by the builder
(`LLVMBuildFAdd`, ..., `LLVMBuildFRem` in src/builder.rs). -/
inductive FOp where
| fadd
| fsub
| fmul
| fdiv
| frem
deriving DecidableEq

/-- An instruction emitted by the builder: which native build call was made
and with which operands/codes. -/
inductive Instr where
| ibin (op : IOp) (l r : Value)
| fbin (op : FOp) (l r : Value)
| icmp (p : LLVMIntPredicate) (l r : Value)
| fcmp (p : LLVMRealPredicate) (l r : Value)
deriving DecidableEq

namespace Builder

/-- Modelled from the spec: the native integer instruction builders
(`LLVMBuildAdd` and friends, engine code not in this repository) require both
operands to be of integer kind; a mismatched-kind operand is a fatal contract
violation (spec sections 4.6, 7, 8). -/
def LLVMBuildIntBin (op : IOp) (l r : Value) : Except Panic Instr :=
  if (l.get_type).is_integer && (r.get_type).is_integer then
    Except.ok (Instr.ibin op l r)
  else
    Except.error Panic.operandKindMismatch

/-- Modelled from the spec: the native floating-point instruction builders
(`LLVMBuildFAdd` and friends, engine code not in this repository) require
both operands to be of float kind; a mismatched-kind operand is a fatal
contract violation (spec sections 4.6, 7, 8). -/
def LLVMBuildFloatBin (op : FOp) (l r : Value) : Except Panic Instr :=
  if (l.get_type).is_float && (r.get_type).is_float then
    Except.ok (Instr.fbin op l r)
  else
    Except.error Panic.operandKindMismatch

/-- The two-function `bin_op!` macro variant (src/builder.rs, lines 28-39):
inspect the left operand's type; if it is an integer use the integer native
builder, otherwise the floating-point one. -/
def bin_op2 (ifunc : IOp) (ffunc : FOp) (l r : Value) : Except Panic Instr :=
  let ty := l.get_type
  if ty.is_integer then LLVMBuildIntBin ifunc l r else LLVMBuildFloatBin ffunc l r

/-- `Builder::create_add` (src/builder.rs, line 259):
`bin_op!{create_add, LLVMBuildAdd, LLVMBuildFAdd}`. -/
def create_add (l r : Value) : Except Panic Instr := bin_op2 IOp.add FOp.fadd l r

/-- `Builder::create_sub` (src/builder.rs, line 260). -/
def create_sub (l r : Value) : Except Panic Instr := bin_op2 IOp.sub FOp.fsub l r

/-- `Builder::create_mul` (src/builder.rs, line 261). -/
def create_mul (l r : Value) : Except Panic Instr := bin_op2 IOp.mul FOp.fmul l r

/-- `Builder::create_div` (src/builder.rs, line 262). -/
def create_div (l r : Value) : Except Panic Instr := bin_op2 IOp.sdiv FOp.fdiv l r

/-- `Builder::create_rem` (src/builder.rs, line 263). -/
def create_rem (l r : Value) : Except Panic Instr := bin_op2 IOp.srem FOp.frem l r

/-- `Builder::create_shl` (src/builder.rs, line 264): one-function `bin_op!`
variant, always the integer native builder, no dispatch. -/
def create_shl (l r : Value) : Except Panic Instr := LLVMBuildIntBin IOp.shl l r

/-- `Builder::create_ashr` (src/builder.rs, line 265). -/
def create_ashr (l r : Value) : Except Panic Instr := LLVMBuildIntBin IOp.ashr l r

/-- `Builder::create_and` (src/builder.rs, line 266). -/
def create_and (l r : Value) : Except Panic Instr := LLVMBuildIntBin IOp.iand l r

/-- `Builder::create_or` (src/builder.rs, line 267). -/
def create_or (l r : Value) : Except Panic Instr := LLVMBuildIntBin IOp.ior l r

/-- `Builder::create_xor` (src/builder.rs, line 268). -/
def create_xor (l r : Value) : Except Panic Instr := LLVMBuildIntBin IOp.ixor l r

/-- The `match (pred, signed)` table of `create_cmp_internal` for integer
operands (src/builder.rs, lines 276-287). -/
def intPredTable : Predicate → Bool → LLVMIntPredicate
| .Equal, _ => .LLVMIntEQ
| .NotEqual, _ => .LLVMIntNE
| .LessThan, true => .LLVMIntSLT
| .LessThan, false => .LLVMIntULT
| .LessThanOrEqual, true => .LLVMIntSLE
| .LessThanOrEqual, false => .LLVMIntULE
| .GreaterThan, true => .LLVMIntSGT
| .GreaterThan, false => .LLVMIntUGT
| .GreaterThanOrEqual, true => .LLVMIntSGE
| .GreaterThanOrEqual, false => .LLVMIntUGE

/-- The `match pred` table of `create_cmp_internal` for float operands
(src/builder.rs, lines 297-304). -/
def realPredTable : Predicate → LLVMRealPredicate
| .Equal => .LLVMRealOEQ
| .NotEqual => .LLVMRealONE
| .GreaterThan => .LLVMRealOGT
| .GreaterThanOrEqual => .LLVMRealOGE
| .LessThan => .LLVMRealOLT
| .LessThanOrEqual => .LLVMRealOLE

/-- `Builder::create_cmp_internal` (src/builder.rs, lines 270-315):
`assert_eq!` the operand types (failure is a fatal contract violation), then
emit an integer comparison if the type is an integer, a float comparison if
it is a float, and panic with "expected numbers" otherwise. -/
def create_cmp_internal (l r : Value) (pred : Predicate) (signed : Bool) :
    Except Panic Instr :=
  let lhs_ty := l.get_type
  let rhs_ty := r.get_type
  if lhs_ty = rhs_ty then
    if lhs_ty.is_integer then
      Except.ok (Instr.icmp (intPredTable pred signed) l r)
    else if lhs_ty.is_float then
      Except.ok (Instr.fcmp (realPredTable pred) l r)
    else
      Except.error (Panic.expectedNumbers lhs_ty)
  else
    Except.error Panic.assertEqFailed

/-- `Builder::create_cmp` (src/builder.rs, lines 318-321). -/
def create_cmp (l r : Value) (pred : Predicate) : Except Panic Instr :=
  create_cmp_internal l r pred true

/-- `Builder::create_ucmp` (src/builder.rs, lines 324-327). -/
def create_ucmp (l r : Value) (pred : Predicate) : Except Panic Instr :=
  create_cmp_internal l r pred false

/-- A call instruction: the callee handle, the argument handles in the order
given, and the native tail-call hint bit. -/
structure CallInst where
  callee : Nat
  args : List Nat
  tail : Nat
deriving DecidableEq

/-- Modelled from the spec: the native `LLVMBuildCall` (engine code not in
this repository) builds a call against the callee and the ordered argument
list, with the tail-call hint initially clear. -/
def LLVMBuildCall (func : Nat) (args : List Nat) : CallInst :=
  CallInst.mk func args 0

/-- Modelled from the spec: the native `LLVMSetTailCall` (engine code not in
this repository) overwrites the call's tail-call hint and changes nothing
else; it does not validate tail position. -/
def LLVMSetTailCall (call : CallInst) (hint : Nat) : CallInst :=
  { call with tail := hint }

/-- `Builder::create_call` (src/builder.rs, lines 145-155): build the call,
then clear the tail-call hint. -/
def create_call (func : Nat) (args : List Nat) : CallInst :=
  let call := LLVMBuildCall func args
  LLVMSetTailCall call 0

/-- `Builder::create_tail_call` (src/builder.rs, lines 160-170): build the
same call, then set the tail-call hint. -/
def create_tail_call (func : Nat) (args : List Nat) : CallInst :=
  let call := LLVMBuildCall func args
  LLVMSetTailCall call 1

end Builder

/-- `ValueIter` (src/value.rs, lines 487-507): a current handle plus the
native "next" step function.  Handles are naturals, 0 being the null
handle; the produced element variant is a phantom in the source and is
dropped here. -/
structure ValueIter where
  cur : Nat
  step : Nat → Nat

/-- `ValueIter::new` (src/value.rs, lines 497-507). -/
def ValueIter.new (cur : Nat) (step : Nat → Nat) : ValueIter :=
  ValueIter.mk cur step

/-- `Iterator::next for ValueIter` (src/value.rs, lines 513-523): if the
current handle is not null, advance via the step function and yield the old
handle; otherwise yield nothing.  Returns the yielded item and the updated
iterator state (the source mutates `self`). -/
def ValueIter.next (it : ValueIter) : Option Nat × ValueIter :=
  let old := it.cur
  if old ≠ 0 then
    (some old, { it with cur := it.step old })
  else
    (none, it)

/-- Drain up to `fuel` elements from the iterator by repeated `next`, the way
a `for` loop over the adapter consumes it. -/
def ValueIter.collect (it : ValueIter) : Nat → List Nat
| 0 => []
| fuel + 1 =>
  match it.next with
  | (some h, it2) => h :: it2.collect fuel
  | (none, _) => []

/-- `hd` points at the handles `l` linked in order by `step`: each handle is
non-null, stepping from one yields the next, and stepping from the last
yields the null handle. -/
def IsChain (step : Nat → Nat) : Nat → List Nat → Prop
| hd, [] => hd = 0
| hd, x :: xs => hd = x ∧ x ≠ 0 ∧ IsChain step (step x) xs

/-- The attribute flag enumeration (`Attribute` in src/value.rs,
lines 400-457), with the exact bit patterns of the source. -/
inductive Attribute where
| ZExt
| SExt
| NoReturn
| InReg
| StructRet
| NoUnwind
| NoAlias
| ByVal
| Nest
| ReadNone
| ReadOnly
| NoInline
| AlwaysInline
| OptimizeForSize
| StackProtect
| StackProtectReq
| Alignment
| NoCapture
| NoRedZone
| NoImplicitFloat
| Naked
| InlineHint
| StackAlignment
| ReturnsTwice
| UWTable
| NonLazyBind
deriving DecidableEq, Fintype

/-- The discriminant bit pattern of each attribute (src/value.rs,
lines 400-457; `From<Attribute> for LLVMAttribute` is a transmute, so the
native mask is this same word). -/
def Attribute.mask : Attribute → Nat
| .ZExt => 0b1
| .SExt => 0b10
| .NoReturn => 0b100
| .InReg => 0b1000
| .StructRet => 0b10000
| .NoUnwind => 0b100000
| .NoAlias => 0b1000000
| .ByVal => 0b10000000
| .Nest => 0b100000000
| .ReadNone => 0b1000000000
| .ReadOnly => 0b10000000000
| .NoInline => 0b100000000000
| .AlwaysInline => 0b1000000000000
| .OptimizeForSize => 0b10000000000000
| .StackProtect => 0b100000000000000
| .StackProtectReq => 0b1000000000000000
| .Alignment => 0b10000000000000000
| .NoCapture => 0b100000000000000000
| .NoRedZone => 0b1000000000000000000
| .NoImplicitFloat => 0b10000000000000000000
| .Naked => 0b100000000000000000000
| .InlineHint => 0b1000000000000000000000
| .StackAlignment => 0b11100000000000000000000000000
| .ReturnsTwice => 0b100000000000000000000000000000
| .UWTable => 0b1000000000000000000000000000000
| .NonLazyBind => 0b10000000000000000000000000000000

/-- The bitflags `contains` test on native attribute words: every bit of
`m` is set in `s`. -/
def maskContains (s m : Nat) : Bool := s &&& m = m

/-- Clear in `s` exactly the bits of `m` (bitwise `s AND NOT m`, expressed
over naturals). -/
def clearBits (s m : Nat) : Nat := s &&& (s ^^^ m)

/-- The `sum` accumulation of `add_attributes` (src/value.rs, lines 192-196
and 335-340): union the flags into one mask starting from
`LLVMAttribute::empty()`. -/
def attrUnion (attrs : List Attribute) : Nat :=
  List.foldl (fun sum a => sum ||| a.mask) 0 attrs

namespace Arg

/-- Modelled from the spec: the native `LLVMAddAttribute` (engine code not in
this repository) ORs the given mask into the argument's attribute word
(spec section 4.4).  The argument's attribute word is passed and returned
explicitly. -/
def LLVMAddAttribute (state mask : Nat) : Nat := state ||| mask

/-- Modelled from the spec: the native `LLVMGetAttribute` reads the
argument's attribute word. -/
def LLVMGetAttribute (state : Nat) : Nat := state

/-- Modelled from the spec: the native `LLVMRemoveAttribute` clears exactly
the bits of the given mask from the argument's attribute word
(spec section 4.4). -/
def LLVMRemoveAttribute (state mask : Nat) : Nat := clearBits state mask

/-- `Arg::add_attribute` (src/value.rs, lines 184-187). -/
def add_attribute (state : Nat) (attr : Attribute) : Nat :=
  LLVMAddAttribute state attr.mask

/-- `Arg::add_attributes` (src/value.rs, lines 190-198): union the flags,
then one native add of the summed mask. -/
def add_attributes (state : Nat) (attrs : List Attribute) : Nat :=
  LLVMAddAttribute state (attrUnion attrs)

/-- `Arg::has_attribute` (src/value.rs, lines 201-207). -/
def has_attribute (state : Nat) (attr : Attribute) : Bool :=
  maskContains (LLVMGetAttribute state) attr.mask

/-- `Arg::has_attributes` (src/value.rs, lines 210-221): false as soon as one
given flag is not contained, true otherwise. -/
def has_attributes (state : Nat) (attrs : List Attribute) : Bool :=
  attrs.all (fun attr => maskContains (LLVMGetAttribute state) attr.mask)

/-- `Arg::remove_attribute` (src/value.rs, lines 224-229). -/
def remove_attribute (state : Nat) (attr : Attribute) : Nat :=
  LLVMRemoveAttribute state attr.mask

end Arg

namespace Function

/-- Modelled from the spec: the native `LLVMAddFunctionAttr` ORs the given
mask into the function's attribute word (spec section 4.4). -/
def LLVMAddFunctionAttr (state mask : Nat) : Nat := state ||| mask

/-- Modelled from the spec: the native `LLVMGetFunctionAttr` reads the
function's attribute word. -/
def LLVMGetFunctionAttr (state : Nat) : Nat := state

/-- Modelled from the spec: the native `LLVMRemoveFunctionAttr` clears
exactly the bits of the given mask from the function's attribute word. -/
def LLVMRemoveFunctionAttr (state mask : Nat) : Nat := clearBits state mask

/-- `Function::add_attribute` (src/value.rs, lines 327-330). -/
def add_attribute (state : Nat) (attr : Attribute) : Nat :=
  LLVMAddFunctionAttr state attr.mask

/-- `Function::add_attributes` (src/value.rs, lines 333-343). -/
def add_attributes (state : Nat) (attrs : List Attribute) : Nat :=
  LLVMAddFunctionAttr state (attrUnion attrs)

/-- `Function::has_attribute` (src/value.rs, lines 346-352). -/
def has_attribute (state : Nat) (attr : Attribute) : Bool :=
  maskContains (LLVMGetFunctionAttr state) attr.mask

/-- `Function::has_attributes` (src/value.rs, lines 355-368). -/
def has_attributes (state : Nat) (attrs : List Attribute) : Bool :=
  attrs.all (fun attr => maskContains (LLVMGetFunctionAttr state) attr.mask)

/-- `Function::remove_attribute` (src/value.rs, lines 371-374). -/
def remove_attribute (state : Nat) (attr : Attribute) : Nat :=
  LLVMRemoveFunctionAttr state attr.mask

end Function

/-- The function-level data observed by `Function::index`, `num_params` and
`get_entry` (src/value.rs): the handles of the position-indexed parameters
and the handle of the entry basic block (0 = null, i.e. no entry block).
All parameter handles of a real function are non-null. -/
structure FuncVal where
  params : List Nat
  entry : Nat
  params_nonnull : ∀ h ∈ params, h ≠ 0

namespace FuncVal

/-- Modelled from the spec: the native `LLVMCountParams` returns the number
of parameters. -/
def LLVMCountParams (f : FuncVal) : Nat := f.params.length

/-- Modelled from the spec: the native `LLVMGetParam` returns the i-th
position-indexed parameter handle (callers guarantee the bound). -/
def LLVMGetParam (f : FuncVal) (i : Nat) (h : i < f.params.length) : Nat :=
  f.params.get ⟨i, h⟩

/-- Modelled from the spec: the native `LLVMGetEntryBasicBlock` returns the
entry block handle, null when the function has none. -/
def LLVMGetEntryBasicBlock (f : FuncVal) : Nat := f.entry

/-- `Index<usize> for Function` (src/value.rs, lines 247-261): in-range
indices return the parameter, out-of-range indices are a `panic!`. -/
def index (f : FuncVal) (i : Nat) : Except Panic Nat :=
  if h : i < LLVMCountParams f then
    Except.ok (LLVMGetParam f i h)
  else
    Except.error (Panic.noSuchIndex i)

/-- `Function::num_params` (src/value.rs, lines 319-324). -/
def num_params (f : FuncVal) : Nat := LLVMCountParams f

/-- `Function::get_entry` (src/value.rs, lines 294-298): the transmute of the
native entry-block handle to an `Option` reference maps the null handle to
`none` and any other handle to `some`. -/
def get_entry (f : FuncVal) : Option Nat :=
  if LLVMGetEntryBasicBlock f = 0 then none else some (LLVMGetEntryBasicBlock f)

end FuncVal

/-- Modelled from the spec: `util::ptr_to_null` (a helper of this repository
whose file is not under src/; spec section 4.1): lookups return an
absent-value result instead of constructing a borrow from a null handle, so
the null handle becomes `none` and any other handle becomes `some`. -/
def ptr_to_null (p : Nat) : Option Nat :=
  if p = 0 then none else some p

/-- The module-level data observed by the lookup operations of
src/module.rs: named globals, named functions and named types, each a
non-null handle keyed by name. -/
structure LLVMModule where
  globals : List (String × Nat)
  functions : List (String × Nat)
  types : List (String × Nat)
  globals_nonnull : ∀ p ∈ globals, p.2 ≠ 0
  functions_nonnull : ∀ p ∈ functions, p.2 ≠ 0
  types_nonnull : ∀ p ∈ types, p.2 ≠ 0

namespace LLVMModule

/-- Modelled from the spec: the native `LLVMGetNamedGlobal` returns the
handle of the global with the given name, or the null handle when none
exists. -/
def LLVMGetNamedGlobal (m : LLVMModule) (name : String) : Nat :=
  match m.globals.find? (fun p => p.1 == name) with
  | some p => p.2
  | none => 0

/-- Modelled from the spec: the native `LLVMGetNamedFunction`, as
`LLVMGetNamedGlobal` but over the module's functions. -/
def LLVMGetNamedFunction (m : LLVMModule) (name : String) : Nat :=
  match m.functions.find? (fun p => p.1 == name) with
  | some p => p.2
  | none => 0

/-- Modelled from the spec: the native `LLVMGetTypeByName`, as
`LLVMGetNamedGlobal` but over the module's named types. -/
def LLVMGetTypeByName (m : LLVMModule) (name : String) : Nat :=
  match m.types.find? (fun p => p.1 == name) with
  | some p => p.2
  | none => 0

/-- `Module::get_global` (src/module.rs, lines 84-90): the native lookup
filtered through `util::ptr_to_null`. -/
def get_global (m : LLVMModule) (name : String) : Option Nat :=
  ptr_to_null (LLVMGetNamedGlobal m name)

/-- `Module::get_function` (src/module.rs, lines 155-162). -/
def get_function (m : LLVMModule) (name : String) : Option Nat :=
  ptr_to_null (LLVMGetNamedFunction m name)

/-- `Module::get_type` (src/module.rs, lines 165-172). -/
def get_type (m : LLVMModule) (name : String) : Option Nat :=
  ptr_to_null (LLVMGetTypeByName m name)

end LLVMModule

/-- The reference table of the spec, signed-integer column: each predicate's
corresponding signed-integer native comparison code (Equal and NotEqual are
sign-agnostic). -/
def specSignedCode : Predicate → LLVMIntPredicate
| .Equal => .LLVMIntEQ
| .NotEqual => .LLVMIntNE
| .LessThan => .LLVMIntSLT
| .LessThanOrEqual => .LLVMIntSLE
| .GreaterThan => .LLVMIntSGT
| .GreaterThanOrEqual => .LLVMIntSGE

/-- The reference table of the spec, unsigned-integer column. -/
def specUnsignedCode : Predicate → LLVMIntPredicate
| .Equal => .LLVMIntEQ
| .NotEqual => .LLVMIntNE
| .LessThan => .LLVMIntULT
| .LessThanOrEqual => .LLVMIntULE
| .GreaterThan => .LLVMIntUGT
| .GreaterThanOrEqual => .LLVMIntUGE

/-- The reference table of the spec, ordered-float column. -/
def specOrderedFloatCode : Predicate → LLVMRealPredicate
| .Equal => .LLVMRealOEQ
| .NotEqual => .LLVMRealONE
| .LessThan => .LLVMRealOLT
| .LessThanOrEqual => .LLVMRealOLE
| .GreaterThan => .LLVMRealOGT
| .GreaterThanOrEqual => .LLVMRealOGE

/-- The signature type of a nullary void function, a convenient concrete
function-signature type. -/
def fnVoid : Ty := Ty.function Ty.void TyList.nil

/-- A concrete module holding one global, one function and one named type,
used to exercise the lookup operations. -/
def moduleExample : LLVMModule where
  globals := [("g", 5)]
  functions := [("f", 7)]
  types := [("t", 9)]
  globals_nonnull := by decide
  functions_nonnull := by decide
  types_nonnull := by decide

/-- A concrete function value with no parameters and no entry block. -/
def funcNoEntry : FuncVal where
  params := []
  entry := 0
  params_nonnull := by decide

/-- A concrete function value with two parameters. -/
def funcTwoParams : FuncVal where
  params := [4, 9]
  entry := 11
  params_nonnull := by decide

/-! Helper lemmas shared by the claim theorems. -/

theorem Ty.not_float_of_integer (t : Ty) (h : t.is_integer = true) :
    t.is_float = false := by
  cases t <;> simp_all [Ty.is_integer, Ty.is_float, Ty.kind]

theorem Ty.not_integer_of_float (t : Ty) (h : t.is_float = true) :
    t.is_integer = false := by
  cases t <;> simp_all [Ty.is_integer, Ty.is_float, Ty.kind]

theorem create_cmp_internal_integer (l r : Value) (pred : Predicate) (sgn : Bool)
    (heq : l.get_type = r.get_type) (hint : (l.get_type).is_integer = true) :
    Builder.create_cmp_internal l r pred sgn =
      Except.ok (Instr.icmp (Builder.intPredTable pred sgn) l r) := by
  unfold Builder.create_cmp_internal
  rw [if_pos heq, if_pos hint]

theorem create_cmp_internal_float (l r : Value) (pred : Predicate) (sgn : Bool)
    (heq : l.get_type = r.get_type) (hfl : (l.get_type).is_float = true) :
    Builder.create_cmp_internal l r pred sgn =
      Except.ok (Instr.fcmp (Builder.realPredTable pred) l r) := by
  unfold Builder.create_cmp_internal
  rw [if_pos heq, if_neg, if_pos hfl]
  simp [Ty.not_integer_of_float _ hfl]

theorem create_cmp_internal_ne (l r : Value) (pred : Predicate) (sgn : Bool)
    (hne : l.get_type ≠ r.get_type) :
    Builder.create_cmp_internal l r pred sgn = Except.error Panic.assertEqFailed := by
  unfold Builder.create_cmp_internal
  rw [if_neg hne]

theorem create_cmp_internal_not_assert (l r : Value) (pred : Predicate) (sgn : Bool)
    (heq : l.get_type = r.get_type) :
    Builder.create_cmp_internal l r pred sgn ≠ Except.error Panic.assertEqFailed := by
  unfold Builder.create_cmp_internal
  rw [if_pos heq]
  by_cases hint : (l.get_type).is_integer = true
  · rw [if_pos hint]; exact fun h => Except.noConfusion h
  · rw [if_neg hint]
    by_cases hfl : (l.get_type).is_float = true
    · rw [if_pos hfl]; exact fun h => Except.noConfusion h
    · rw [if_neg hfl]
      intro h
      exact Panic.noConfusion (Except.error.inj h)

theorem intPredTable_signed (pred : Predicate) :
    Builder.intPredTable pred true = specSignedCode pred := by
  cases pred <;> rfl

theorem intPredTable_unsigned (pred : Predicate) :
    Builder.intPredTable pred false = specUnsignedCode pred := by
  cases pred <;> rfl

theorem realPredTable_ordered (pred : Predicate) :
    Builder.realPredTable pred = specOrderedFloatCode pred := by
  cases pred <;> rfl

/-!  The claim theorems.  -/

/-- C1: for the six predicates, `create_cmp` on integer operands selects the
signed-integer native codes, `create_ucmp` the unsigned ones (Equal and
NotEqual being the same sign-agnostic codes), and on float operands both
select the ordered-float codes — exactly the 18 entries of the reference
table. -/
theorem C1_cmp_predicate_table (l r : Value) (pred : Predicate)
    (heq : l.get_type = r.get_type) :
    ((l.get_type).is_integer = true →
      Builder.create_cmp l r pred = Except.ok (Instr.icmp (specSignedCode pred) l r) ∧
      Builder.create_ucmp l r pred = Except.ok (Instr.icmp (specUnsignedCode pred) l r)) ∧
    ((l.get_type).is_float = true →
      Builder.create_cmp l r pred = Except.ok (Instr.fcmp (specOrderedFloatCode pred) l r) ∧
      Builder.create_ucmp l r pred = Except.ok (Instr.fcmp (specOrderedFloatCode pred) l r)) ∧
    (specSignedCode Predicate.Equal = specUnsignedCode Predicate.Equal ∧
      specSignedCode Predicate.NotEqual = specUnsignedCode Predicate.NotEqual) := by
  refine ⟨fun hint => ⟨?_, ?_⟩, fun hfl => ⟨?_, ?_⟩, rfl, rfl⟩
  · rw [Builder.create_cmp, create_cmp_internal_integer l r pred true heq hint,
      intPredTable_signed]
  · rw [Builder.create_ucmp, create_cmp_internal_integer l r pred false heq hint,
      intPredTable_unsigned]
  · rw [Builder.create_cmp, create_cmp_internal_float l r pred true heq hfl,
      realPredTable_ordered]
  · rw [Builder.create_ucmp, create_cmp_internal_float l r pred false heq hfl,
      realPredTable_ordered]

/-- Witness for C1: concrete 32-bit-integer and double operands. -/
theorem C1_witness :
    ((Value.mk 1 (Ty.integer 32)).get_type = (Value.mk 2 (Ty.integer 32)).get_type ∧
      ((Value.mk 1 (Ty.integer 32)).get_type).is_integer = true ∧
      Builder.create_cmp (Value.mk 1 (Ty.integer 32)) (Value.mk 2 (Ty.integer 32))
          Predicate.LessThan
        = Except.ok (Instr.icmp LLVMIntPredicate.LLVMIntSLT
            (Value.mk 1 (Ty.integer 32)) (Value.mk 2 (Ty.integer 32))) ∧
      Builder.create_ucmp (Value.mk 1 (Ty.integer 32)) (Value.mk 2 (Ty.integer 32))
          Predicate.LessThan
        = Except.ok (Instr.icmp LLVMIntPredicate.LLVMIntULT
            (Value.mk 1 (Ty.integer 32)) (Value.mk 2 (Ty.integer 32)))) ∧
    (((Value.mk 3 Ty.double).get_type).is_float = true ∧
      Builder.create_cmp (Value.mk 3 Ty.double) (Value.mk 4 Ty.double) Predicate.Equal
        = Except.ok (Instr.fcmp LLVMRealPredicate.LLVMRealOEQ
            (Value.mk 3 Ty.double) (Value.mk 4 Ty.double))) := by
  have h1 := (C1_cmp_predicate_table (Value.mk 1 (Ty.integer 32))
    (Value.mk 2 (Ty.integer 32)) Predicate.LessThan rfl).1 rfl
  have h2 := ((C1_cmp_predicate_table (Value.mk 3 Ty.double)
    (Value.mk 4 Ty.double) Predicate.Equal rfl).2).1 rfl
  exact ⟨⟨rfl, rfl, h1.1, h1.2⟩, rfl, h2.1⟩

/-- C2 counterexample: two operands of the same non-numeric (void) type have
equal types, yet `create_cmp`/`create_ucmp` is a fatal contract violation
(the "expected numbers" panic), refuting "for every pair of operands whose
types are equal, create_cmp and create_ucmp complete without a contract
violation". -/
theorem C2_counterexample :
    (Value.mk 1 Ty.void).get_type = (Value.mk 2 Ty.void).get_type ∧
    Builder.create_cmp (Value.mk 1 Ty.void) (Value.mk 2 Ty.void) Predicate.Equal
      = Except.error (Panic.expectedNumbers Ty.void) ∧
    Builder.create_ucmp (Value.mk 1 Ty.void) (Value.mk 2 Ty.void) Predicate.Equal
      = Except.error (Panic.expectedNumbers Ty.void) :=
  ⟨rfl, rfl, rfl⟩

/-- C2 (amended): operands of equal numeric (integer or float) type complete
without a contract violation; operands of differing types are a fatal
contract violation for both operations; and under the equal-types
precondition the failure branch of the type-equality assertion is
unreachable. -/
theorem C2_cmp_type_contract (l r : Value) (pred : Predicate) :
    (l.get_type = r.get_type →
      ((l.get_type).is_integer = true ∨ (l.get_type).is_float = true) →
      (∃ i, Builder.create_cmp l r pred = Except.ok i) ∧
      (∃ i, Builder.create_ucmp l r pred = Except.ok i)) ∧
    (l.get_type ≠ r.get_type →
      Builder.create_cmp l r pred = Except.error Panic.assertEqFailed ∧
      Builder.create_ucmp l r pred = Except.error Panic.assertEqFailed) ∧
    (l.get_type = r.get_type →
      Builder.create_cmp l r pred ≠ Except.error Panic.assertEqFailed ∧
      Builder.create_ucmp l r pred ≠ Except.error Panic.assertEqFailed) := by
  refine ⟨fun heq hnum => ?_, fun hne => ?_, fun heq => ?_⟩
  · rcases hnum with hint | hfl
    · rw [Builder.create_cmp, Builder.create_ucmp,
        create_cmp_internal_integer l r pred true heq hint,
        create_cmp_internal_integer l r pred false heq hint]
      exact ⟨⟨_, rfl⟩, ⟨_, rfl⟩⟩
    · rw [Builder.create_cmp, Builder.create_ucmp,
        create_cmp_internal_float l r pred true heq hfl,
        create_cmp_internal_float l r pred false heq hfl]
      exact ⟨⟨_, rfl⟩, ⟨_, rfl⟩⟩
  · exact ⟨create_cmp_internal_ne l r pred true hne,
      create_cmp_internal_ne l r pred false hne⟩
  · exact ⟨create_cmp_internal_not_assert l r pred true heq,
      create_cmp_internal_not_assert l r pred false heq⟩

/-- Witness for C2 (amended): concrete equal-integer, differing, and
equal-void operand pairs. -/
theorem C2_witness :
    (∃ i, Builder.create_cmp (Value.mk 1 (Ty.integer 8)) (Value.mk 2 (Ty.integer 8))
      Predicate.Equal = Except.ok i) ∧
    Builder.create_cmp (Value.mk 1 (Ty.integer 8)) (Value.mk 2 Ty.double)
      Predicate.Equal = Except.error Panic.assertEqFailed ∧
    Builder.create_cmp (Value.mk 1 Ty.void) (Value.mk 2 Ty.void)
      Predicate.Equal ≠ Except.error Panic.assertEqFailed := by
  refine ⟨((C2_cmp_type_contract (Value.mk 1 (Ty.integer 8)) (Value.mk 2 (Ty.integer 8))
      Predicate.Equal).1 rfl (Or.inl rfl)).1,
    ((C2_cmp_type_contract (Value.mk 1 (Ty.integer 8)) (Value.mk 2 Ty.double)
      Predicate.Equal).2.1 (by decide)).1,
    ((C2_cmp_type_contract (Value.mk 1 Ty.void) (Value.mk 2 Ty.void)
      Predicate.Equal).2.2 rfl).1⟩

/-- C3: `create_add` emits the integer add on two integer operands, the
float add on two float operands, and is a contract violation on
mismatched-kind operands; `create_sub`, `create_mul`, `create_div` and
`create_rem` follow the same dispatch on the left operand's type kind;
`create_shl`, `create_ashr`, `create_and`, `create_or` and `create_xor`
always use the integer native builder with no dispatch. -/
theorem C3_binop_dispatch (l r : Value) :
    ((l.get_type).is_integer = true → (r.get_type).is_integer = true →
      Builder.create_add l r = Except.ok (Instr.ibin IOp.add l r)) ∧
    ((l.get_type).is_float = true → (r.get_type).is_float = true →
      Builder.create_add l r = Except.ok (Instr.fbin FOp.fadd l r)) ∧
    ((l.get_type).is_integer = true → (r.get_type).is_float = true →
      Builder.create_add l r = Except.error Panic.operandKindMismatch) ∧
    ((l.get_type).is_float = true → (r.get_type).is_integer = true →
      Builder.create_add l r = Except.error Panic.operandKindMismatch) ∧
    ((l.get_type).is_integer = true →
      Builder.create_sub l r = Builder.LLVMBuildIntBin IOp.sub l r ∧
      Builder.create_mul l r = Builder.LLVMBuildIntBin IOp.mul l r ∧
      Builder.create_div l r = Builder.LLVMBuildIntBin IOp.sdiv l r ∧
      Builder.create_rem l r = Builder.LLVMBuildIntBin IOp.srem l r) ∧
    ((l.get_type).is_integer = false →
      Builder.create_sub l r = Builder.LLVMBuildFloatBin FOp.fsub l r ∧
      Builder.create_mul l r = Builder.LLVMBuildFloatBin FOp.fmul l r ∧
      Builder.create_div l r = Builder.LLVMBuildFloatBin FOp.fdiv l r ∧
      Builder.create_rem l r = Builder.LLVMBuildFloatBin FOp.frem l r) ∧
    (Builder.create_shl l r = Builder.LLVMBuildIntBin IOp.shl l r ∧
      Builder.create_ashr l r = Builder.LLVMBuildIntBin IOp.ashr l r ∧
      Builder.create_and l r = Builder.LLVMBuildIntBin IOp.iand l r ∧
      Builder.create_or l r = Builder.LLVMBuildIntBin IOp.ior l r ∧
      Builder.create_xor l r = Builder.LLVMBuildIntBin IOp.ixor l r) := by
  refine ⟨fun hil hir => ?_, fun hfl hfr => ?_, fun hil hfr => ?_, fun hfl hir => ?_,
    fun hil => ?_, fun hnl => ?_, rfl, rfl, rfl, rfl, rfl⟩
  · simp [Builder.create_add, Builder.bin_op2, Builder.LLVMBuildIntBin, hil, hir]
  · simp [Builder.create_add, Builder.bin_op2, Builder.LLVMBuildFloatBin,
      Ty.not_integer_of_float _ hfl, hfl, hfr]
  · simp [Builder.create_add, Builder.bin_op2, Builder.LLVMBuildIntBin, hil,
      Ty.not_integer_of_float _ hfr]
  · simp [Builder.create_add, Builder.bin_op2, Builder.LLVMBuildFloatBin,
      Ty.not_integer_of_float _ hfl, hfl, Ty.not_float_of_integer _ hir]
  · refine ⟨?_, ?_, ?_, ?_⟩ <;>
      simp [Builder.create_sub, Builder.create_mul, Builder.create_div,
        Builder.create_rem, Builder.bin_op2, hil]
  · refine ⟨?_, ?_, ?_, ?_⟩ <;>
      simp [Builder.create_sub, Builder.create_mul, Builder.create_div,
        Builder.create_rem, Builder.bin_op2, hnl]

/-- Witness for C3: concrete integer and double operands in each kind
combination. -/
theorem C3_witness :
    Builder.create_add (Value.mk 1 (Ty.integer 32)) (Value.mk 2 (Ty.integer 32))
      = Except.ok (Instr.ibin IOp.add (Value.mk 1 (Ty.integer 32))
          (Value.mk 2 (Ty.integer 32))) ∧
    Builder.create_add (Value.mk 3 Ty.double) (Value.mk 4 Ty.double)
      = Except.ok (Instr.fbin FOp.fadd (Value.mk 3 Ty.double) (Value.mk 4 Ty.double)) ∧
    Builder.create_add (Value.mk 1 (Ty.integer 32)) (Value.mk 4 Ty.double)
      = Except.error Panic.operandKindMismatch ∧
    Builder.create_add (Value.mk 3 Ty.double) (Value.mk 2 (Ty.integer 32))
      = Except.error Panic.operandKindMismatch := by
  refine ⟨(C3_binop_dispatch (Value.mk 1 (Ty.integer 32)) (Value.mk 2 (Ty.integer 32))).1
      rfl rfl,
    (C3_binop_dispatch (Value.mk 3 Ty.double) (Value.mk 4 Ty.double)).2.1 rfl rfl,
    (C3_binop_dispatch (Value.mk 1 (Ty.integer 32)) (Value.mk 4 Ty.double)).2.2.1 rfl rfl,
    (C3_binop_dispatch (Value.mk 3 Ty.double) (Value.mk 2 (Ty.integer 32))).2.2.2.1 rfl rfl⟩

/-- C4 counterexample: a value whose type is an array of function signatures
is neither a function signature nor a pointer, yet the capability cast to
Function succeeds, refuting "for every Value whose type is neither, the cast
returns absence". -/
theorem C4_counterexample :
    (Ty.array fnVoid 1).is_function = false ∧
    (Ty.array fnVoid 1).is_pointer = false ∧
    Function.cast (Value.mk 1 (Ty.array fnVoid 1))
      = some (Value.mk 1 (Ty.array fnVoid 1)) :=
  ⟨rfl, rfl, rfl⟩

/-- C4 (amended): the capability cast of a Value to Function succeeds exactly
when the value's type is a function signature or its one-level-unwrapped
element type (of a pointer, array or vector type) is one; on every other
value it returns absence; a successful cast returns the same handle and
never misrepresents a value that fails that test. -/
theorem C4_function_cast (v : Value) :
    ((v.get_type).is_function = true → Function.cast v = some v) ∧
    (∀ e, (v.get_type).get_element = some e → e.is_function = true →
      Function.cast v = some v) ∧
    ((v.get_type).is_function = false →
      (∀ e, (v.get_type).get_element = some e → e.is_function = false) →
      Function.cast v = none) ∧
    (∀ w, Function.cast v = some w →
      w = v ∧ ((v.get_type).is_function = true ∨
        ∃ e, (v.get_type).get_element = some e ∧ e.is_function = true)) := by
  rcases he : (v.get_type).get_element with _ | e
  · refine ⟨fun hf => ?_, fun e h => by simp_all, fun hnf _ => ?_, fun w hw => ?_⟩
    · simp [Function.cast, he, hf]
    · simp [Function.cast, he, hnf]
    · rcases hf : (v.get_type).is_function with _ | _
      · simp [Function.cast, he, hf] at hw
      · simp [Function.cast, he, hf] at hw
        exact ⟨hw.symm, Or.inl rfl⟩
  · refine ⟨fun hf => ?_, fun x h hx => ?_, fun hnf hne => ?_, fun w hw => ?_⟩
    · simp [Function.cast, he, hf]
    · have hxe : x = e := by simp_all
      subst hxe
      simp [Function.cast, he, hx]
    · simp [Function.cast, he, hnf, hne e rfl]
    · rcases hf : (v.get_type).is_function with _ | _
      · rcases hef : e.is_function with _ | _
        · simp [Function.cast, he, hf, hef] at hw
        · simp [Function.cast, he, hf, hef] at hw
          exact ⟨hw.symm, Or.inr ⟨e, rfl, hef⟩⟩
      · simp [Function.cast, he, hf] at hw
        exact ⟨hw.symm, Or.inl rfl⟩

/-- Witness for C4 (amended): a pointer-to-function value casts to `some`,
an integer value casts to `none`. -/
theorem C4_witness :
    Function.cast (Value.mk 1 (Ty.pointer fnVoid)) = some (Value.mk 1 (Ty.pointer fnVoid)) ∧
    Function.cast (Value.mk 2 (Ty.integer 32)) = none := by
  refine ⟨(C4_function_cast (Value.mk 1 (Ty.pointer fnVoid))).2.1 fnVoid rfl rfl,
    (C4_function_cast (Value.mk 2 (Ty.integer 32))).2.2.1 rfl ?_⟩
  intro e h
  exact Option.noConfusion h

/-- C10: the cast of a Type to FunctionType strips arbitrarily many levels of
element indirection before checking the function-kind tag, so a
pointer-to-pointer-to-function-signature type casts successfully, while the
cast of a Value to Function unwraps at most one level and returns absence on
the same doubly-indirected type; on singly-indirected types both succeed. -/
theorem C10_cast_indirection_depth (ft : Ty) (hf : ft.is_function = true) :
    (∀ t : Ty, FunctionType.cast (Ty.pointer t) = FunctionType.cast t) ∧
    FunctionType.cast (Ty.pointer (Ty.pointer ft)) = some ft ∧
    (∀ h : Nat, Function.cast (Value.mk h (Ty.pointer (Ty.pointer ft))) = none) ∧
    (∀ h : Nat, Function.cast (Value.mk h (Ty.pointer ft))
      = some (Value.mk h (Ty.pointer ft))) := by
  cases ft
  case function ret params => exact ⟨fun t => rfl, rfl, fun h => rfl, fun h => rfl⟩
  all_goals exact Bool.noConfusion hf

/-- Witness for C10: the nullary void function signature, doubly and singly
indirected. -/
theorem C10_witness :
    FunctionType.cast (Ty.pointer (Ty.pointer fnVoid)) = some fnVoid ∧
    Function.cast (Value.mk 3 (Ty.pointer (Ty.pointer fnVoid))) = none ∧
    Function.cast (Value.mk 3 (Ty.pointer fnVoid))
      = some (Value.mk 3 (Ty.pointer fnVoid)) :=
  ⟨(C10_cast_indirection_depth fnVoid rfl).2.1,
    (C10_cast_indirection_depth fnVoid rfl).2.2.1 3,
    (C10_cast_indirection_depth fnVoid rfl).2.2.2 3⟩

theorem collect_of_chain (step : Nat → Nat) :
    ∀ (l : List Nat) (hd : Nat), IsChain step hd l →
      ∀ fuel : Nat, l.length ≤ fuel → (ValueIter.new hd step).collect fuel = l := by
  intro l
  induction l with
  | nil =>
    intro hd hc fuel _
    cases fuel with
    | zero => rfl
    | succ n =>
      have h0 : hd = 0 := hc
      subst h0
      rfl
  | cons x xs ih =>
    intro hd hc fuel hlen
    obtain ⟨rfl, hx, hrest⟩ := hc
    cases fuel with
    | zero => exact absurd hlen (by simp)
    | succ n =>
      have hstep : (ValueIter.new hd step).collect (n + 1)
          = hd :: (ValueIter.new (step hd) step).collect n := by
        simp [ValueIter.collect, ValueIter.next, ValueIter.new, hx]
      rw [hstep, ih (step hd) hrest n (Nat.le_of_succ_le_succ hlen)]

/-- C5: the iterator adapter yields the current handle and advances via the
step function on each `next`, ends the first time the current handle is
null, yields the empty sequence when started on the null handle, and started
on the first of N linked elements (the N-th step yielding null) it yields
exactly those N elements in list order. -/
theorem C5_iterator_adapter (step : Nat → Nat) :
    (∀ it : ValueIter, it.cur ≠ 0 →
      it.next = (some it.cur, ValueIter.mk (it.step it.cur) it.step)) ∧
    (∀ it : ValueIter, it.cur = 0 → it.next = (none, it)) ∧
    (∀ fuel : Nat, (ValueIter.new 0 step).collect fuel = []) ∧
    (∀ (hd : Nat) (l : List Nat), IsChain step hd l →
      ∀ fuel : Nat, l.length ≤ fuel → (ValueIter.new hd step).collect fuel = l) := by
  refine ⟨fun it h => ?_, fun it h => ?_, fun fuel => ?_, fun hd l hc => ?_⟩
  · simp [ValueIter.next, h]
  · simp [ValueIter.next, h]
  · exact collect_of_chain step [] 0 rfl fuel (by simp)
  · exact collect_of_chain step l hd hc

/-- Witness for C5: a concrete two-element chain 1 → 2 → null and the empty
chain. -/
theorem C5_witness :
    (ValueIter.new 1 (fun h => if h = 1 then 2 else 0)).collect 2 = [1, 2] ∧
    (ValueIter.new 0 (fun h => if h = 1 then 2 else 0)).collect 5 = [] := by
  refine ⟨(C5_iterator_adapter (fun h => if h = 1 then 2 else 0)).2.2.2 1 [1, 2]
      ⟨rfl, by decide, rfl, by decide, rfl⟩ 2 (by decide),
    (C5_iterator_adapter (fun h => if h = 1 then 2 else 0)).2.2.1 5⟩

theorem maskContains_iff (s m : Nat) :
    maskContains s m = true ↔ ∀ i, m.testBit i = true → s.testBit i = true := by
  unfold maskContains
  rw [decide_eq_true_iff]
  constructor
  · intro h i hi
    have h2 := congrArg (fun n => n.testBit i) h
    simp [Nat.testBit_land, hi] at h2
    exact h2
  · intro h
    apply Nat.eq_of_testBit_eq
    intro i
    rw [Nat.testBit_land]
    cases hmi : m.testBit i with
    | false => simp
    | true => simp [h i hmi]

theorem clearBits_testBit (s m i : Nat) :
    (clearBits s m).testBit i = (s.testBit i && !(m.testBit i)) := by
  unfold clearBits
  rw [Nat.testBit_land, Nat.testBit_xor]
  cases hs : s.testBit i <;> cases hm : m.testBit i <;> rfl

theorem attr_masks_disjoint :
    ∀ A B : Attribute, A ≠ B → Attribute.mask A &&& Attribute.mask B = 0 := by decide

theorem attr_mask_pos : ∀ A : Attribute, Attribute.mask A ≠ 0 := by decide

theorem attrUnion_pair (A B : Attribute) :
    attrUnion [A, B] = Attribute.mask A ||| Attribute.mask B := by
  simp [attrUnion, List.foldl]

theorem attr_state_lemma (s u w : Nat) (hdisj : u &&& w = 0) (hu : u ≠ 0) :
    maskContains (s ||| (u ||| w)) u = true ∧
    maskContains (s ||| (u ||| w)) w = true ∧
    maskContains (clearBits (s ||| (u ||| w)) u) u = false ∧
    maskContains (clearBits (s ||| (u ||| w)) u) w = true := by
  have hdisj1 : ∀ i, u.testBit i = true → w.testBit i = false := by
    intro i hui
    have h2 := congrArg (fun n => n.testBit i) hdisj
    simp [Nat.testBit_land, Nat.zero_testBit, hui] at h2
    exact h2
  have hdisj2 : ∀ i, w.testBit i = true → u.testBit i = false := by
    intro i hwi
    cases hui : u.testBit i with
    | false => rfl
    | true => rw [hdisj1 i hui] at hwi; exact Bool.noConfusion hwi
  refine ⟨?_, ?_, ?_, ?_⟩
  · rw [maskContains_iff]
    intro i hi
    simp [Nat.testBit_lor, hi]
  · rw [maskContains_iff]
    intro i hi
    simp [Nat.testBit_lor, hi]
  · cases hc : maskContains (clearBits (s ||| (u ||| w)) u) u with
    | false => rfl
    | true =>
      exfalso
      rw [maskContains_iff] at hc
      apply hu
      apply Nat.eq_of_testBit_eq
      intro i
      rw [Nat.zero_testBit]
      cases hui : u.testBit i with
      | false => rfl
      | true =>
        have h3 := hc i hui
        rw [clearBits_testBit, hui] at h3
        simp at h3
  · rw [maskContains_iff]
    intro i hi
    rw [clearBits_testBit, hdisj2 i hi]
    simp [Nat.testBit_lor, hi]

/-- C6: on both Function and Arg, adding the attribute set consisting of two
distinct attributes in either order yields the same state, a state in which
`has_attributes` of both is true; removing the first afterwards clears
exactly its bits, so `has_attribute` is false for it and still true for the
other. -/
theorem C6_attribute_bitset (s : Nat) (A B : Attribute) (hne : A ≠ B) :
    (Arg.add_attributes s [A, B] = Arg.add_attributes s [B, A]) ∧
    (Arg.has_attributes (Arg.add_attributes s [A, B]) [A, B] = true) ∧
    (Arg.has_attribute (Arg.remove_attribute (Arg.add_attributes s [A, B]) A) A
      = false) ∧
    (Arg.has_attribute (Arg.remove_attribute (Arg.add_attributes s [A, B]) A) B
      = true) ∧
    (Function.add_attributes s [A, B] = Function.add_attributes s [B, A]) ∧
    (Function.has_attributes (Function.add_attributes s [A, B]) [A, B] = true) ∧
    (Function.has_attribute
      (Function.remove_attribute (Function.add_attributes s [A, B]) A) A = false) ∧
    (Function.has_attribute
      (Function.remove_attribute (Function.add_attributes s [A, B]) A) B = true) := by
  obtain ⟨h1, h2, h3, h4⟩ :=
    attr_state_lemma s A.mask B.mask (attr_masks_disjoint A B hne) (attr_mask_pos A)
  have hadd : Arg.add_attributes s [A, B] = s ||| (A.mask ||| B.mask) := by
    simp [Arg.add_attributes, Arg.LLVMAddAttribute, attrUnion_pair]
  have hadd2 : Arg.add_attributes s [B, A] = s ||| (B.mask ||| A.mask) := by
    simp [Arg.add_attributes, Arg.LLVMAddAttribute, attrUnion_pair]
  have fadd : Function.add_attributes s [A, B] = s ||| (A.mask ||| B.mask) := by
    simp [Function.add_attributes, Function.LLVMAddFunctionAttr, attrUnion_pair]
  have fadd2 : Function.add_attributes s [B, A] = s ||| (B.mask ||| A.mask) := by
    simp [Function.add_attributes, Function.LLVMAddFunctionAttr, attrUnion_pair]
  refine ⟨?_, ?_, ?_, ?_, ?_, ?_, ?_, ?_⟩
  · rw [hadd, hadd2, Nat.lor_comm A.mask B.mask]
  · rw [hadd]
    simp [Arg.has_attributes, Arg.LLVMGetAttribute, h1, h2]
  · rw [hadd]
    simpa [Arg.has_attribute, Arg.remove_attribute, Arg.LLVMRemoveAttribute,
      Arg.LLVMGetAttribute] using h3
  · rw [hadd]
    simpa [Arg.has_attribute, Arg.remove_attribute, Arg.LLVMRemoveAttribute,
      Arg.LLVMGetAttribute] using h4
  · rw [fadd, fadd2, Nat.lor_comm A.mask B.mask]
  · rw [fadd]
    simp [Function.has_attributes, Function.LLVMGetFunctionAttr, h1, h2]
  · rw [fadd]
    simpa [Function.has_attribute, Function.remove_attribute,
      Function.LLVMRemoveFunctionAttr, Function.LLVMGetFunctionAttr] using h3
  · rw [fadd]
    simpa [Function.has_attribute, Function.remove_attribute,
      Function.LLVMRemoveFunctionAttr, Function.LLVMGetFunctionAttr] using h4

/-- Witness for C6: the distinct attributes ZExt and SExt on the empty
attribute state. -/
theorem C6_witness :
    Arg.add_attributes 0 [Attribute.ZExt, Attribute.SExt]
      = Arg.add_attributes 0 [Attribute.SExt, Attribute.ZExt] ∧
    Arg.has_attributes (Arg.add_attributes 0 [Attribute.ZExt, Attribute.SExt])
      [Attribute.ZExt, Attribute.SExt] = true ∧
    Arg.has_attribute
      (Arg.remove_attribute (Arg.add_attributes 0 [Attribute.ZExt, Attribute.SExt])
        Attribute.ZExt) Attribute.ZExt = false ∧
    Function.has_attribute
      (Function.remove_attribute
        (Function.add_attributes 0 [Attribute.ZExt, Attribute.SExt])
        Attribute.ZExt) Attribute.SExt = true := by
  have h := C6_attribute_bitset 0 Attribute.ZExt Attribute.SExt (by decide)
  exact ⟨h.1, h.2.1, h.2.2.1, h.2.2.2.2.2.2.2⟩

theorem ptr_to_null_some (x h : Nat) (he : ptr_to_null x = some h) : h ≠ 0 := by
  unfold ptr_to_null at he
  by_cases hx : x = 0
  · rw [if_pos hx] at he
    exact Option.noConfusion he
  · rw [if_neg hx] at he
    rw [← Option.some.inj he]
    exact hx

/-- C7: `get_global`, `get_function` and `get_type` return `none` when no
entity with the name exists and `some` of the stored handle when one does;
`get_entry` returns `none` when the function has no entry block; none of
these lookups returns an error (their result type is an option, not a
result), and none ever wraps the null handle in `some`. -/
theorem C7_lookup_absence (m : LLVMModule) (name : String) (f : FuncVal) :
    (m.globals.find? (fun p => p.1 == name) = none → m.get_global name = none) ∧
    (∀ p, m.globals.find? (fun q => q.1 == name) = some p →
      m.get_global name = some p.2) ∧
    (m.functions.find? (fun p => p.1 == name) = none → m.get_function name = none) ∧
    (∀ p, m.functions.find? (fun q => q.1 == name) = some p →
      m.get_function name = some p.2) ∧
    (m.types.find? (fun p => p.1 == name) = none → m.get_type name = none) ∧
    (∀ p, m.types.find? (fun q => q.1 == name) = some p →
      m.get_type name = some p.2) ∧
    (f.entry = 0 → f.get_entry = none) ∧
    (f.entry ≠ 0 → f.get_entry = some f.entry) ∧
    (∀ h, m.get_global name = some h → h ≠ 0) ∧
    (∀ h, m.get_function name = some h → h ≠ 0) ∧
    (∀ h, m.get_type name = some h → h ≠ 0) ∧
    (∀ h, f.get_entry = some h → h ≠ 0) := by
  refine ⟨fun h => ?_, fun p h => ?_, fun h => ?_, fun p h => ?_, fun h => ?_,
    fun p h => ?_, fun h => ?_, fun h => ?_,
    fun h hh => ptr_to_null_some _ h hh,
    fun h hh => ptr_to_null_some _ h hh,
    fun h hh => ptr_to_null_some _ h hh,
    fun h hh => ?_⟩
  · simp [LLVMModule.get_global, LLVMModule.LLVMGetNamedGlobal, h, ptr_to_null]
  · have hnz := m.globals_nonnull p (List.mem_of_find?_eq_some h)
    simp [LLVMModule.get_global, LLVMModule.LLVMGetNamedGlobal, h, ptr_to_null, hnz]
  · simp [LLVMModule.get_function, LLVMModule.LLVMGetNamedFunction, h, ptr_to_null]
  · have hnz := m.functions_nonnull p (List.mem_of_find?_eq_some h)
    simp [LLVMModule.get_function, LLVMModule.LLVMGetNamedFunction, h, ptr_to_null, hnz]
  · simp [LLVMModule.get_type, LLVMModule.LLVMGetTypeByName, h, ptr_to_null]
  · have hnz := m.types_nonnull p (List.mem_of_find?_eq_some h)
    simp [LLVMModule.get_type, LLVMModule.LLVMGetTypeByName, h, ptr_to_null, hnz]
  · simp [FuncVal.get_entry, FuncVal.LLVMGetEntryBasicBlock, h]
  · simp [FuncVal.get_entry, FuncVal.LLVMGetEntryBasicBlock, h]
  · unfold FuncVal.get_entry at hh
    by_cases hz : FuncVal.LLVMGetEntryBasicBlock f = 0
    · rw [if_pos hz] at hh
      exact Option.noConfusion hh
    · rw [if_neg hz] at hh
      rw [← Option.some.inj hh]
      exact hz

/-- Witness for C7: the concrete module with one global, function and named
type, a hit and a miss for each lookup, and a function without entry
block. -/
theorem C7_witness :
    LLVMModule.get_global moduleExample "g" = some 5 ∧
    LLVMModule.get_global moduleExample "x" = none ∧
    LLVMModule.get_function moduleExample "f" = some 7 ∧
    LLVMModule.get_type moduleExample "t" = some 9 ∧
    FuncVal.get_entry funcNoEntry = none :=
  ⟨(C7_lookup_absence moduleExample "g" funcNoEntry).2.1 ("g", 5) rfl,
    (C7_lookup_absence moduleExample "x" funcNoEntry).1 rfl,
    (C7_lookup_absence moduleExample "f" funcNoEntry).2.2.2.1 ("f", 7) rfl,
    (C7_lookup_absence moduleExample "t" funcNoEntry).2.2.2.2.2.1 ("t", 9) rfl,
    (C7_lookup_absence moduleExample "t" funcNoEntry).2.2.2.2.2.2.1 rfl⟩

/-- C8: `create_call` and `create_tail_call` build the identical call
instruction against the arguments in the given order and differ only in the
tail-call hint set afterwards — cleared by `create_call`, set by
`create_tail_call`; neither inspects anything beyond the callee and the
arguments (there is no tail-position validation: overwriting the hint maps
one result onto the other). -/
theorem C8_tail_call_hint (func : Nat) (args : List Nat) :
    Builder.create_call func args = Builder.CallInst.mk func args 0 ∧
    Builder.create_tail_call func args = Builder.CallInst.mk func args 1 ∧
    Builder.LLVMSetTailCall (Builder.create_call func args) 1
      = Builder.create_tail_call func args ∧
    Builder.LLVMSetTailCall (Builder.create_tail_call func args) 0
      = Builder.create_call func args :=
  ⟨rfl, rfl, rfl, rfl⟩

/-- C9: indexing a function with an argument index strictly below the
parameter count returns the position-indexed argument handle; any index at
or above the count is a fatal contract violation (the `panic!` branch) and
never returns a value. -/
theorem C9_index_bounds (f : FuncVal) (i : Nat) :
    (∀ h : i < f.params.length,
      FuncVal.index f i = Except.ok (f.params.get ⟨i, h⟩)) ∧
    (f.params.length ≤ i →
      FuncVal.index f i = Except.error (Panic.noSuchIndex i)) ∧
    (f.params.length ≤ i → ∀ x, FuncVal.index f i ≠ Except.ok x) := by
  refine ⟨fun h => ?_, fun h => ?_, fun h x => ?_⟩
  · simp [FuncVal.index, FuncVal.LLVMCountParams, FuncVal.LLVMGetParam, h]
  · simp [FuncVal.index, FuncVal.LLVMCountParams, Nat.not_lt.mpr h]
  · simp [FuncVal.index, FuncVal.LLVMCountParams, Nat.not_lt.mpr h]

/-- Witness for C9: a function with two parameters, indexed in range and out
of range. -/
theorem C9_witness :
    FuncVal.index funcTwoParams 0 = Except.ok 4 ∧
    FuncVal.index funcTwoParams 5 = Except.error (Panic.noSuchIndex 5) :=
  ⟨(C9_index_bounds funcTwoParams 0).1 (by decide),
    (C9_index_bounds funcTwoParams 5).2.1 (by decide)⟩

end LlvmRs
